import Mathlib

/-!
Shallow embedding of the voice interaction layer of this repository.

The canonical implementation lives in `src/services/speechService.ts`
(class `SpeechService`): a callback-based wrapper around the browser's
`SpeechRecognition` and `speechSynthesis` capabilities.  The repository
also contains divergent re-implementations of the same service; the
promise-based variant (with the pronunciation-substitution table
`XLYGER AI -> SLIGER AI`) and the variant with the letter-by-letter
table `XLYGER AI -> X-L-Y-G-E-R A-I` are embedded below as far as the
properties under study need them.

Modelling conventions:
* The service's mutable fields become a `SpeechState` record; each
  method becomes a function `SpeechState -> ... -> SpeechState` (paired
  with the list of callback invocations it performs synchronously).
* The host platform's asynchronous events (`onstart`, `onresult`,
  `onerror`, `onend` of recognition; utterance completion of synthesis)
  become event constructors; `step` dispatches a single method call or
  platform event, `run` folds a whole trace.
* Callbacks handed to `startListening` are identified by a caller id
  (`Nat`); an observable `Output` records which caller's result/error
  callback fired and with what string.
* The platform synthesis queue is the `synthQueue` field
  (`synthesis.cancel()` empties it, `synthesis.speak(u)` enqueues);
  `handedTexts` is an append-only log of every text handed to
  `synthesis.speak`, used to state what the platform was asked to say.
* Float voice parameters (`rate = 0.9` etc.) are represented in
  integer percent; they take part in no arithmetic.
-/

namespace SpeechSvc

/-- A synthesis voice as returned by `synthesis.getVoices()`:
a name and a BCP-47 language tag. -/
structure Voice where
  name : String
  lang : String
deriving DecidableEq, Repr

/-- Exact (case-sensitive) prefix test on character lists,
mirroring `String.prototype.startsWith` / `includes` matching. -/
def strStarts : List Char → List Char → Bool
  | [], _ => true
  | _ :: _, [] => false
  | p :: ps, c :: cs => (p == c) && strStarts ps cs

/-- Substring occurrence test on character lists
(`voice.name.includes('Google')`). -/
def occursSub (pat : List Char) : List Char → Bool
  | [] => strStarts pat []
  | c :: cs => strStarts pat (c :: cs) || occursSub pat cs

/-- Case-insensitive prefix test on character lists, used to mirror a
JavaScript regex replace with the `i` flag. -/
def ciStarts : List Char → List Char → Bool
  | [], _ => true
  | _ :: _, [] => false
  | p :: ps, c :: cs => (p.toLower == c.toLower) && ciStarts ps cs

/-- Global, case-insensitive, non-overlapping, left-to-right replacement
of `pat` by `rep`, mirroring `text.replace(/pat/gi, rep)` for a pattern
with no regex metacharacters.  The `fuel` argument makes the scan
structurally recursive; one unit of fuel is spent per consumed input
character, so fuel equal to the input length always suffices. -/
def ciReplaceFuel (pat rep : List Char) : Nat → List Char → List Char
  | _, [] => []
  | 0, l => l
  | fuel + 1, c :: cs =>
    if ciStarts pat (c :: cs) then
      rep ++ ciReplaceFuel pat rep fuel (List.drop (pat.length - 1) cs)
    else
      c :: ciReplaceFuel pat rep fuel cs

/-- String-level wrapper for `ciReplaceFuel`. -/
def ciReplaceStr (pat rep t : String) : String :=
  String.mk (ciReplaceFuel pat.data rep.data t.data.length t.data)

/-- One observable callback invocation delivered to a caller of the
service: `result c t` records caller `c`'s transcript callback firing
with text `t`; `err c m` records caller `c`'s error callback firing
with message `m`. -/
inductive Output where
  | result (caller : Nat) (text : String)
  | err (caller : Nat) (msg : String)
deriving DecidableEq, Repr

/-- A `SpeechSynthesisUtterance` as configured by the canonical
`speak`: the text handed to the platform, rate/pitch/volume in percent
(`0.9`/`1`/`1` in the source), and the voice selected from the
catalog, if any. -/
structure Utterance where
  text : String
  ratePct : Nat
  pitchPct : Nat
  volumePct : Nat
  voice : Option Voice
deriving DecidableEq, Repr

/-- State of the canonical `SpeechService` plus the platform facts it
interacts with.  `recogSupported` is whether the `SpeechRecognition`
constructor existed (so `this.recognition` is non-null after
construction); `synthSupported` is whether `window.speechSynthesis`
is present; `isListening`, `onResultCallback`, `onErrorCallback` are
the service's private fields (callbacks stored as caller ids);
`recogActive` is whether the platform capture session is running
(`recognition.start()` throws while it is); `stopRequested` records a
pending `recognition.stop()` request; `voices` is the platform voice
catalog; `synthQueue` the platform synthesis queue; `handedTexts` the
log of texts handed to `synthesis.speak`. -/
structure SpeechState where
  recogSupported : Bool
  synthSupported : Bool
  isListening : Bool
  onResultCallback : Option Nat
  onErrorCallback : Option Nat
  recogActive : Bool
  stopRequested : Bool
  voices : List Voice
  synthQueue : List Utterance
  handedTexts : List String
deriving DecidableEq, Repr

/-- The service as constructed (all private fields at their initial
values), parametrised by which platform capabilities exist and the
platform voice catalog. -/
def mkService (recog synth : Bool) (vs : List Voice) : SpeechState :=
  { recogSupported := recog
    synthSupported := synth
    isListening := false
    onResultCallback := none
    onErrorCallback := none
    recogActive := false
    stopRequested := false
    voices := vs
    synthQueue := []
    handedTexts := [] }

/-- The error table of `SpeechService.getErrorMessage`: a TypeScript
`switch` on the platform error string with four labelled cases and a
default. -/
def getErrorMessage (error : String) : String :=
  if error = "no-speech" then
    "No speech detected. Please try speaking again."
  else if error = "audio-capture" then
    "Microphone not accessible. Please check permissions."
  else if error = "not-allowed" then
    "Microphone permission denied. Please allow microphone access."
  else if error = "network" then
    "Network error occurred. Please check your connection."
  else
    "Speech recognition error. Please try again."

/-- The `recognition.onstart` handler: sets `isListening`. -/
def onstartHandler (s : SpeechState) : SpeechState :=
  { s with isListening := true }

/-- The `recognition.onresult` handler: reads the transcript and, when
a result callback is registered, invokes it.  It does not touch
`isListening`. -/
def onresultHandler (s : SpeechState) (transcript : String) :
    SpeechState × List Output :=
  (s, match s.onResultCallback with
      | some c => [Output.result c transcript]
      | none => [])

/-- The `recognition.onerror` handler: clears `isListening`, maps the
platform error string through `getErrorMessage`, and invokes the error
callback when one is registered. -/
def onerrorHandler (s : SpeechState) (e : String) :
    SpeechState × List Output :=
  ({ s with isListening := false },
   match s.onErrorCallback with
   | some c => [Output.err c (getErrorMessage e)]
   | none => [])

/-- The `recognition.onend` handler: clears `isListening`; the platform
capture session is over, so `recognition.start()` may be called again
and any pending stop request is consumed. -/
def onendHandler (s : SpeechState) : SpeechState :=
  { s with isListening := false, recogActive := false, stopRequested := false }

/-- Method `stopListening`: when the recognition object exists and the
service believes it is listening, request `recognition.stop()` from the
platform; otherwise do nothing.  The stored callbacks are not cleared
and no callback is invoked. -/
def stopListening (s : SpeechState) : SpeechState :=
  if s.recogSupported && s.isListening then
    { s with stopRequested := true }
  else
    s

/-- Method `startListening(onResult, onError)` for caller `c`:
if recognition is unsupported, synchronously invoke the error callback
and return; if already listening, behave as `stopListening` (toggle);
otherwise store the two callbacks and call `recognition.start()`,
catching the exception it throws when the platform session is already
active. -/
def startListening (s : SpeechState) (c : Nat) :
    SpeechState × List Output :=
  if !s.recogSupported then
    (s, [Output.err c "Speech recognition not supported in this browser"])
  else if s.isListening then
    (stopListening s, [])
  else
    let s1 := { s with onResultCallback := some c, onErrorCallback := some c }
    if s1.recogActive then
      (s1, [Output.err c "Failed to start speech recognition"])
    else
      ({ s1 with recogActive := true }, [])

/-- Voice selection of the canonical `speak`: the first English voice
whose name includes `Google`, else the first English voice. -/
def pickEnglishVoice (vs : List Voice) : Option Voice :=
  match vs.find? (fun v =>
      strStarts "en".data v.lang.data && occursSub "Google".data v.name.data) with
  | some v => some v
  | none => vs.find? (fun v => strStarts "en".data v.lang.data)

/-- Method `speak(text)` of the canonical service: `synthesis.cancel()`
(emptying the platform queue), then construct an utterance with the
caller's text verbatim, rate `0.9`, pitch `1`, volume `1` and the best
available English voice, and hand it to `synthesis.speak`.  There is no
check of `isListening`, no emptiness check on `text`, and no
substitution applied to `text`. -/
def speak (s : SpeechState) (text : String) : SpeechState :=
  let u : Utterance :=
    { text := text
      ratePct := 90
      pitchPct := 100
      volumePct := 100
      voice := pickEnglishVoice s.voices }
  { s with synthQueue := [u], handedTexts := s.handedTexts ++ [text] }

/-- Method `stopSpeaking`: `synthesis.cancel()` — empty the platform
synthesis queue. -/
def stopSpeaking (s : SpeechState) : SpeechState :=
  { s with synthQueue := [] }

/-- Method `isSupported`: `!!(this.recognition && this.synthesis)`. -/
def isSupported (s : SpeechState) : Bool :=
  s.recogSupported && s.synthSupported

/-- Getter `listening`: returns the private `isListening` field. -/
def listening (s : SpeechState) : Bool :=
  s.isListening

/-- One atomic occurrence in an execution: either a method call made by
some caller, or an asynchronous platform event (recognition `onstart`,
`onresult`, `onerror`, `onend`; completion of the synthesis utterance
at the head of the queue). -/
inductive Ev where
  | startListening (caller : Nat)
  | stopListening
  | speak (text : String)
  | stopSpeaking
  | recogStart
  | recogResult (t : String)
  | recogError (e : String)
  | recogEnd
  | synthEnd
deriving DecidableEq, Repr

/-- Dispatch one event against the canonical service, returning the new
state and the callback invocations performed. -/
def step (s : SpeechState) : Ev → SpeechState × List Output
  | Ev.startListening c => startListening s c
  | Ev.stopListening => (stopListening s, [])
  | Ev.speak t => (speak s t, [])
  | Ev.stopSpeaking => (stopSpeaking s, [])
  | Ev.recogStart => (onstartHandler s, [])
  | Ev.recogResult t => onresultHandler s t
  | Ev.recogError e => onerrorHandler s e
  | Ev.recogEnd => (onendHandler s, [])
  | Ev.synthEnd => ({ s with synthQueue := s.synthQueue.drop 1 }, [])

/-- Fold a trace of events, collecting all callback invocations in
order. -/
def run (s : SpeechState) : List Ev → SpeechState × List Output
  | [] => (s, [])
  | e :: es =>
    let r1 := step s e
    let r2 := run r1.1 es
    (r2.1, r1.2 ++ r2.2)

/-- The pronunciation substitution of the promise-based variant's
`speak`: `text.replace(/XLYGER AI/gi, 'SLIGER AI')`. -/
def fixPronunciation (text : String) : String :=
  ciReplaceStr "XLYGER AI" "SLIGER AI" text

/-- The pronunciation substitution of the letter-by-letter variant's
`speak`: `text.replace(/XLYGER AI/gi, 'X-L-Y-G-E-R A-I')`. -/
def spellOutPronunciation (text : String) : String :=
  ciReplaceStr "XLYGER AI" "X-L-Y-G-E-R A-I" text

/-- An utterance of the promise-based variant's `speak`: the corrected
text, rate `0.9`, pitch `1`, volume `1` (in percent) and the service's
current language tag. -/
structure PVUtterance where
  text : String
  ratePct : Nat
  pitchPct : Nat
  volumePct : Nat
  lang : String
deriving DecidableEq, Repr

/-- State of the promise-based variant as far as its synthesis side is
concerned: the `isSpeaking` flag, the `currentUtterance` field, the
current language, the platform synthesis queue and the append-only log
of texts handed to `synthesis.speak`. -/
structure PromiseState where
  isSpeaking : Bool
  currentUtterance : Option PVUtterance
  currentLanguage : String
  synthQueue : List PVUtterance
  handed : List String
deriving DecidableEq, Repr

/-- The promise-based variant's `stopSpeaking`: cancel the platform
queue when speech is in flight, clear `isSpeaking` and
`currentUtterance`. -/
def pStopSpeaking (s : PromiseState) : PromiseState :=
  { s with synthQueue := [], isSpeaking := false, currentUtterance := none }

/-- The promise-based variant's `speak(text)`: `stopSpeaking()`, then
apply `fixPronunciation` to the text, build the utterance from the
corrected text and the current language, store it in
`currentUtterance` and hand it to `synthesis.speak`.  The caller's
`text` argument itself is unchanged (the correction produces a fresh
string). -/
def pSpeak (s : PromiseState) (text : String) : PromiseState :=
  let s1 := pStopSpeaking s
  let corrected := fixPronunciation text
  let u : PVUtterance :=
    { text := corrected
      ratePct := 90
      pitchPct := 100
      volumePct := 100
      lang := s1.currentLanguage }
  { s1 with
    currentUtterance := some u
    synthQueue := [u]
    handed := s1.handed ++ [corrected] }

/-- C1: claimed mutual exclusion of listening and speaking fails on the
code.  After `startListening`, the platform `onstart`, and a `speak`
call, the service is listening and a synthesis utterance is in the
platform queue at the same time: `speak` never checks `isListening` and
`startListening` never cancels synthesis, so the state has both a
capture and a playback in flight. -/
theorem c1_mutual_exclusion_fails_on_code :
    ((run (mkService true true [])
        [Ev.startListening 0, Ev.recogStart, Ev.speak "hi"]).1.isListening = true) ∧
    ((run (mkService true true [])
        [Ev.startListening 0, Ev.recogStart, Ev.speak "hi"]).1.synthQueue ≠ []) := by
  decide

/-- C2: claimed preemption of speech by listening fails on the code.
With an utterance in flight, calling `startListening` (and the platform
opening the microphone via `onstart`) leaves the utterance in the
synthesis queue untouched: the canonical `startListening` contains no
call to `stopSpeaking`/`synthesis.cancel`, so speech is not stopped
before the microphone opens. -/
theorem c2_no_preemption_of_speech :
    ((run (mkService true true [])
        [Ev.speak "hello", Ev.startListening 0, Ev.recogStart]).1.isListening = true) ∧
    ((run (mkService true true [])
        [Ev.speak "hello", Ev.startListening 0, Ev.recogStart]).1.synthQueue =
      [{ text := "hello", ratePct := 90, pitchPct := 100, volumePct := 100,
         voice := none }]) := by
  decide

/-- C3: claimed rejection of `speak` while listening fails on the code.
Calling `speak "test"` during an active capture performs a state
transition (the utterance is queued — second conjunct) and produces no
rejection or error to any caller; the whole trace's only output is the
transcript that the unaffected in-flight recognition still delivers
afterwards (first conjunct — that part of the claim does hold). -/
theorem c3_speak_not_rejected_while_listening :
    ((run (mkService true true [])
        [Ev.startListening 0, Ev.recogStart, Ev.speak "test", Ev.recogResult "hi"]).2 =
      [Output.result 0 "hi"]) ∧
    ((run (mkService true true [])
        [Ev.startListening 0, Ev.recogStart, Ev.speak "test"]).1.synthQueue ≠ []) := by
  decide

/-- C4 counterexample: the claim that the first caller's pending
callback is resolved with a Cancelled failure is false.  Calling
`startListening` twice (caller 0, then caller 1) and letting the
platform fire `onend` produces no callback invocation at all — the
output trace is empty, so caller 0 never observes any Cancelled
failure; its callbacks stay registered (second conjunct). -/
theorem c4_counterexample :
    ((run (mkService true true [])
        [Ev.startListening 0, Ev.recogStart, Ev.startListening 1, Ev.recogEnd]).2 = []) ∧
    ((run (mkService true true [])
        [Ev.startListening 0, Ev.recogStart, Ev.startListening 1,
         Ev.recogEnd]).1.onResultCallback = some 0) := by
  decide

/-- C4 (amended): calling `startListening` while a capture is in flight
behaves exactly as `stopListening` — the result is literally
`stopListening` applied to the state (second conjunct), which only
requests a platform stop: no second capture starts, the stored
callbacks are unchanged, no transcript or failure is delivered to the
newer caller and none to the first caller either; once the platform
fires `onend` the service is no longer listening (third conjunct). -/
theorem c4_toggle_stop (s : SpeechState) (c : Nat)
    (hr : s.recogSupported = true) (hl : s.isListening = true) :
    startListening s c = ({ s with stopRequested := true }, []) ∧
    startListening s c = (stopListening s, []) ∧
    (onendHandler (startListening s c).1).isListening = false := by
  simp [startListening, stopListening, onendHandler, hr, hl]

/-- C4 witness: the amended toggle-stop theorem applied to a concrete
mid-capture state. -/
theorem c4_toggle_stop_witness :
    startListening
        { recogSupported := true, synthSupported := true, isListening := true,
          onResultCallback := some 0, onErrorCallback := some 0, recogActive := true,
          stopRequested := false, voices := [], synthQueue := [], handedTexts := [] } 1 =
      ({ recogSupported := true, synthSupported := true, isListening := true,
         onResultCallback := some 0, onErrorCallback := some 0, recogActive := true,
         stopRequested := true, voices := [], synthQueue := [], handedTexts := [] }, []) :=
  (c4_toggle_stop
    { recogSupported := true, synthSupported := true, isListening := true,
      onResultCallback := some 0, onErrorCallback := some 0, recogActive := true,
      stopRequested := false, voices := [], synthQueue := [], handedTexts := [] }
    1 rfl rfl).1

/-- C5: claimed stale-event immunity fails on the code.  After the
caller cancels the capture with `stopListening`, a result event still
invokes the caller's result callback — and a duplicated result event
invokes it a second time — because the handlers never compare the event
against a stored session handle and the callbacks are never cleared. -/
theorem c5_stale_events_fire_callbacks :
    (run (mkService true true [])
        [Ev.startListening 0, Ev.recogStart, Ev.stopListening,
         Ev.recogResult "hello", Ev.recogResult "hello"]).2 =
      [Output.result 0 "hello", Output.result 0 "hello"] := by
  decide

/-- C6: the recognition error mapping is the fixed total table of
`getErrorMessage` — the four labelled platform strings map to their
messages, every other string maps to the single default message, and
injecting `not-allowed` during an active capture delivers the
permission-denied message to the caller and leaves the service not
listening. -/
theorem c6_error_table :
    getErrorMessage "no-speech" = "No speech detected. Please try speaking again." ∧
    getErrorMessage "audio-capture" = "Microphone not accessible. Please check permissions." ∧
    getErrorMessage "not-allowed" = "Microphone permission denied. Please allow microphone access." ∧
    getErrorMessage "network" = "Network error occurred. Please check your connection." ∧
    (∀ e : String, e ≠ "no-speech" → e ≠ "audio-capture" → e ≠ "not-allowed" →
      e ≠ "network" →
      getErrorMessage e = "Speech recognition error. Please try again.") ∧
    ((run (mkService true true [])
        [Ev.startListening 0, Ev.recogStart, Ev.recogError "not-allowed"]).2 =
      [Output.err 0 "Microphone permission denied. Please allow microphone access."]) ∧
    ((run (mkService true true [])
        [Ev.startListening 0, Ev.recogStart,
         Ev.recogError "not-allowed"]).1.isListening = false) := by
  refine ⟨by decide, by decide, by decide, by decide, ?_, by decide, by decide⟩
  intro e h1 h2 h3 h4
  simp [getErrorMessage, h1, h2, h3, h4]

/-- C6 witness: an unlisted platform error string falls through to the
default message. -/
theorem c6_error_table_witness :
    getErrorMessage "aborted" = "Speech recognition error. Please try again." :=
  c6_error_table.2.2.2.2.1 "aborted" (by decide) (by decide) (by decide) (by decide)

/-- C7: when the recognition capability is absent, `startListening`
invokes the error callback synchronously with the unsupported message
and returns the state unchanged (the service stays non-listening and
usable); and `isSupported` is false exactly when recognition or
synthesis is absent. -/
theorem c7_unsupported_sync_failure (s : SpeechState) (c : Nat)
    (h : s.recogSupported = false) :
    startListening s c =
      (s, [Output.err c "Speech recognition not supported in this browser"]) ∧
    (∀ s2 : SpeechState,
      isSupported s2 = false ↔ (s2.recogSupported = false ∨ s2.synthSupported = false)) := by
  refine ⟨by simp [startListening, h], ?_⟩
  intro s2
  cases h1 : s2.recogSupported <;> cases h2 : s2.synthSupported <;>
    simp [isSupported, h1, h2]

/-- C7 witness: a service constructed on a platform with synthesis but
no recognition fails a `startListening` call synchronously and without
any state change. -/
theorem c7_unsupported_sync_failure_witness :
    startListening (mkService false true []) 0 =
      (mkService false true [],
       [Output.err 0 "Speech recognition not supported in this browser"]) :=
  (c7_unsupported_sync_failure (mkService false true []) 0 rfl).1

/-- C8 counterexample: `speak` with empty text is not a no-op.  With an
utterance `"ongoing"` in flight, `speak ""` cancels it (the queue
afterwards holds only the new empty utterance, not `"ongoing"`) and
hands the empty text to the platform — both of which the claim
forbids. -/
theorem c8_counterexample :
    ((run (mkService true true [])
        [Ev.speak "ongoing", Ev.speak ""]).1.handedTexts = ["ongoing", ""]) ∧
    ((run (mkService true true [])
        [Ev.speak "ongoing", Ev.speak ""]).1.synthQueue =
      [{ text := "", ratePct := 90, pitchPct := 100, volumePct := 100,
         voice := none }]) := by
  decide

/-- C8 (amended): `speak` does not special-case empty or
whitespace-only text — for every text, including the empty string, it
cancels any in-flight playback (the synthesis queue is replaced by the
single new utterance) and hands the platform an utterance carrying
exactly the caller's text. -/
theorem c8_empty_speak_not_noop (s : SpeechState) (t : String) :
    speak s t =
      { s with
        synthQueue := [{ text := t, ratePct := 90, pitchPct := 100,
                         volumePct := 100, voice := pickEnglishVoice s.voices }],
        handedTexts := s.handedTexts ++ [t] } :=
  rfl

/-- C9 counterexample: the canonical `speak` applies no pronunciation
substitution — the product name `XLYGER AI` is handed to the platform
verbatim, which is neither the phonetic expansion `SLIGER AI` nor the
letter-by-letter expansion `X-L-Y-G-E-R A-I` used by the other two
variants. -/
theorem c9_counterexample :
    ((run (mkService true true []) [Ev.speak "XLYGER AI"]).1.handedTexts =
      ["XLYGER AI"]) ∧
    ("XLYGER AI" : String) ≠ "SLIGER AI" ∧
    ("XLYGER AI" : String) ≠ "X-L-Y-G-E-R A-I" := by
  decide

/-- C9 (amended): the pronunciation substitution lives in the
non-canonical variants.  The promise-based variant's `speak` hands the
platform exactly `fixPronunciation` of the input (stored in
`currentUtterance` and in the handed log), which is a fixed pure
function — deterministic by construction, leaving the caller's string
untouched — expanding `XLYGER AI` case-insensitively to `SLIGER AI`
and leaving other text alone; the letter-by-letter variant uses
`spellOutPronunciation` instead; the canonical `speak` hands every
text verbatim. -/
theorem c9_pronunciation_substitution (s : PromiseState) (t : String) :
    (pSpeak s t).handed = s.handed ++ [fixPronunciation t] ∧
    (pSpeak s t).currentUtterance =
      some { text := fixPronunciation t, ratePct := 90, pitchPct := 100,
             volumePct := 100, lang := s.currentLanguage } ∧
    fixPronunciation "XLYGER AI" = "SLIGER AI" ∧
    fixPronunciation "Welcome to xlyger ai!" = "Welcome to SLIGER AI!" ∧
    fixPronunciation "no product name here" = "no product name here" ∧
    spellOutPronunciation "XLYGER AI" = "X-L-Y-G-E-R A-I" ∧
    (∀ s2 : SpeechState, ∀ u : String,
      (speak s2 u).handedTexts = s2.handedTexts ++ [u]) :=
  ⟨rfl, rfl, by decide, by decide, by decide, by decide, fun _ _ => rfl⟩

/-- C10: a transcript does not end the listening state.  Delivering a
result invokes the caller's callback but leaves the whole state — in
particular `isListening` — unchanged (third conjunct, for every state);
in the concrete trace the public `listening` getter still reports true
after the transcript, and a `startListening` call in that window takes
the toggle-stop branch: it only requests a platform stop, starting no
new capture and replacing no callbacks. -/
theorem c10_transcript_keeps_listening :
    ((run (mkService true true [])
        [Ev.startListening 0, Ev.recogStart, Ev.recogResult "hello"]).2 =
      [Output.result 0 "hello"]) ∧
    (listening (run (mkService true true [])
        [Ev.startListening 0, Ev.recogStart, Ev.recogResult "hello"]).1 = true) ∧
    (∀ s : SpeechState, ∀ t : String, (onresultHandler s t).1 = s) ∧
    (startListening
        (run (mkService true true [])
          [Ev.startListening 0, Ev.recogStart, Ev.recogResult "hello"]).1 1 =
      ({ (run (mkService true true [])
            [Ev.startListening 0, Ev.recogStart, Ev.recogResult "hello"]).1 with
          stopRequested := true }, [])) :=
  ⟨by decide, by decide, fun _ _ => rfl, by decide⟩

end SpeechSvc

